import Mathlib

/-
Verification of the Intel 8080 / Space Invaders emulator core.

This file gives a shallow embedding, translated from the Rust sources, of:
  - the condition-flags register (src/conditions.rs),
  - the flat test bus (src/memory/basic_memory.rs),
  - the arcade bus with ROM/RAM mirroring (src/space_invaders_memory.rs),
  - the CPU state machine, its instruction implementations, the opcode
    dispatcher and the tick protocol (src/cpu.rs),
  - the frame driver's OUT-port routing (src/application.rs),
and proves or refutes the specified properties over that embedding.

Modelling conventions:
  - Rust u8 / u16 / u32 values are Nat; a truncating cast `as u8` / `as u16`
    is an explicit `% 256` / `% 65536`.
  - A Rust arithmetic operator (`+`, `-`) on a fixed-width integer is a
    program error on overflow (it aborts when overflow checks are enabled,
    which is the cargo default profile); it is therefore modelled as a
    checked operation returning `Option Nat`, with `none` for the overflow
    case.  The explicitly wrapping methods (`wrapping_add`, `wrapping_sub`,
    `wrapping_neg`, `overflowing_add`, `overflowing_sub`) are modelled as
    total modular arithmetic.  Shifts drop the shifted-out bits silently,
    as in Rust.
  - Explicit `panic` arms in the source (the unreachable register-pair arms
    of POP/PUSH/LXI helpers, the frame driver's unknown-OUT-port arm) are
    modelled as `none`.
  - The `Box<dyn Memory>` bus is modelled by parametrising the CPU over a
    memory representation `M` together with a `MemoryOps M` record of its
    `read` and `write` operations.
-/

/-! ## Fixed-width arithmetic helpers -/

/-- Checked addition bounded by `bound`: `none` models the Rust overflow abort. -/
def checkedAdd (bound x y : Nat) : Option Nat :=
  if x + y ≤ bound then some (x + y) else none

/-- Rust `u8 + u8`. -/
def u8add (x y : Nat) : Option Nat := checkedAdd 255 x y

/-- Rust `u16 + u16`. -/
def u16add (x y : Nat) : Option Nat := checkedAdd 65535 x y

/-- Rust `u32 + u32`. -/
def u32add (x y : Nat) : Option Nat := checkedAdd 4294967295 x y

/-- Rust `u16 - u16`: `none` models the underflow abort. -/
def u16sub (x y : Nat) : Option Nat :=
  if y ≤ x then some (x - y) else none

/-- Rust `u16::wrapping_add`. -/
def u16wrapping_add (x y : Nat) : Nat := (x + y) % 65536

/-- Rust `u16::wrapping_sub`. -/
def u16wrapping_sub (x y : Nat) : Nat := (x + (65536 - y % 65536)) % 65536

/-- Rust `u8::wrapping_neg`. -/
def u8wrapping_neg (x : Nat) : Nat := (256 - x % 256) % 256

/-- Number of set bits (Rust `count_ones`). -/
def count_ones (n : Nat) : Nat :=
  if n = 0 then 0 else n % 2 + count_ones (n / 2)
decreasing_by exact Nat.div_lt_self (Nat.pos_of_ne_zero (by assumption)) (by decide)

/-- Rust `u8::rotate_left(1)`. -/
def u8rotate_left1 (a : Nat) : Nat := (((a % 256) <<< 1) % 256) ||| ((a % 256) >>> 7)

/-- Rust `u8::rotate_right(1)`. -/
def u8rotate_right1 (a : Nat) : Nat := ((a % 256) >>> 1) ||| ((((a % 256) &&& 1) <<< 7) % 256)

/-- cpu.rs `concat_u8`: `((high as u16) << 8) | low as u16` on byte inputs. -/
def concat_u8 (high low : Nat) : Nat := (high <<< 8) ||| low

/-- cpu.rs `split_u16`: high byte `(val >> 8) as u8`, low byte `val & 0xFF`. -/
def split_u16 (val : Nat) : Nat × Nat := ((val >>> 8) % 256, val &&& 0xFF)

/-- cpu.rs `check_half_carry_add`: carry out of bit 3 of the low-nibble add
(the source uses `overflowing_add`, hence the wrap at 256). -/
def check_half_carry_add (v1 v2 : Nat) : Bool :=
  decide ((((v1 &&& 0x0F) + (v2 &&& 0x0F)) % 256) &&& 0x10 = 0x10)

/-- cpu.rs `check_half_carry_sub`: borrow out of bit 4 of the low-nibble
subtract (the source uses `overflowing_sub`, hence the wrap at 256). -/
def check_half_carry_sub (v1 v2 : Nat) : Bool :=
  decide ((((v1 &&& 0x0F) + 256 - (v2 &&& 0x0F)) % 256) &&& 0x10 = 0x10)

/-! ## Condition flags (src/conditions.rs) -/

/-- conditions.rs `ConditionName`. -/
inductive ConditionName where
  | Carry
  | Auxillary
  | Sign
  | Zero
  | Parity

/-- conditions.rs `Conditions`: the five 8080 condition bits. -/
@[ext]
structure Conditions where
  carry : Bool
  aux : Bool
  sign : Bool
  zero : Bool
  parity : Bool
deriving DecidableEq

/-- conditions.rs `Conditions::new`: all five bits cleared. -/
def Conditions.new : Conditions :=
  { carry := false, aux := false, sign := false, zero := false, parity := false }

/-- conditions.rs `Conditions::set`. -/
def Conditions.set (cond : Conditions) (register : ConditionName) (value : Bool) : Conditions :=
  match register with
  | ConditionName.Carry => { cond with carry := value }
  | ConditionName.Auxillary => { cond with aux := value }
  | ConditionName.Sign => { cond with sign := value }
  | ConditionName.Zero => { cond with zero := value }
  | ConditionName.Parity => { cond with parity := value }

/-- conditions.rs `Conditions::get`. -/
def Conditions.get (cond : Conditions) (register : ConditionName) : Bool :=
  match register with
  | ConditionName.Carry => cond.carry
  | ConditionName.Auxillary => cond.aux
  | ConditionName.Sign => cond.sign
  | ConditionName.Zero => cond.zero
  | ConditionName.Parity => cond.parity

/-- conditions.rs `Conditions::as_bits`: pack the five bits into the PSW byte.
Bit 1 is always set, bits 3 and 5 are always clear. -/
def Conditions.as_bits (cond : Conditions) : Nat :=
  let bits : Nat := 0b00000010
  let bits := if cond.carry then bits ||| 0b00000001 else bits
  let bits := if cond.parity then bits ||| 0b00000100 else bits
  let bits := if cond.aux then bits ||| 0b00010000 else bits
  let bits := if cond.zero then bits ||| 0b01000000 else bits
  let bits := if cond.sign then bits ||| 0b10000000 else bits
  bits

/-- conditions.rs `Conditions::restore_from_bits`: unpack the PSW byte.  Each
branch of the source's if/else pairs collapses to the corresponding bit test. -/
def Conditions.restore_from_bits (cond : Conditions) (bits : Nat) : Conditions :=
  { carry := decide (bits &&& 0b00000001 = 0b00000001)
    parity := decide (bits &&& 0b00000100 = 0b00000100)
    aux := decide (bits &&& 0b00010000 = 0b00010000)
    zero := decide (bits &&& 0b01000000 = 0b01000000)
    sign := decide (bits &&& 0b10000000 = 0b10000000) }

/-! ## Memory buses -/

/-- The flat 64 KiB backing store is a byte-valued function of the address. -/
abbrev BMem := Nat → Nat

/-- Read/write interface of a bus implementation (memory.rs trait `Memory`),
used to model the CPU's `Box<dyn Memory>` field. -/
structure MemoryOps (M : Type) where
  read : M → Nat → Nat
  write : M → Nat → Nat → M

/-- basic_memory.rs `BasicMemory::new`: a fresh all-zero 64 KiB array. -/
def basic_new : BMem := fun _ => 0

/-- basic_memory.rs `read` for `BasicMemory`. -/
def basic_read (m : BMem) (addr : Nat) : Nat := m addr

/-- basic_memory.rs `write` for `BasicMemory`. -/
def basic_write (m : BMem) (addr data : Nat) : BMem :=
  fun x => if x = addr then data else m x

/-- The `MemoryOps` bundle for the flat test bus. -/
def basic_ops : MemoryOps BMem :=
  { read := basic_read, write := basic_write }

/-- space_invaders_memory.rs `SpaceInvadersMemory::new`: the first 8192 bytes
come from the ROM image, the rest of the 64 KiB array is zero. -/
def space_new (rom : Nat → Nat) : BMem :=
  fun addr => if addr < 8192 then rom addr else 0

/-- space_invaders_memory.rs `read` for `SpaceInvadersMemory`: the source's
range match, arm for arm (addresses are u16, hence below 0x10000). -/
def space_read (m : BMem) (addr : Nat) : Nat :=
  if addr ≤ 0x3FFF then m addr
  else if addr ≤ 0x5FFF then m (addr - 0x2000)
  else if addr ≤ 0x7FFF then m (addr - 0x4000)
  else if addr ≤ 0x9FFF then m (addr - 0x6000)
  else if addr ≤ 0xBFFF then m (addr - 0x8000)
  else if addr ≤ 0xDFFF then m (addr - 0xA000)
  else m (addr - 0xC000)

/-- space_invaders_memory.rs `write` for `SpaceInvadersMemory`: ROM-folding
ranges return the memory unchanged, RAM-folding ranges store the byte. -/
def space_write (m : BMem) (addr data : Nat) : BMem :=
  if addr ≤ 0x1FFF then m
  else if addr ≤ 0x3FFF then basic_write m addr data
  else if addr ≤ 0x5FFF then m
  else if addr ≤ 0x7FFF then basic_write m (addr - 0x4000) data
  else if addr ≤ 0x9FFF then m
  else if addr ≤ 0xBFFF then basic_write m (addr - 0x8000) data
  else if addr ≤ 0xDFFF then m
  else basic_write m (addr - 0xC000) data

/-! ## CPU state (src/cpu.rs) -/

/-- cpu.rs `Register`: the seven 8-bit registers. -/
inductive Register where
  | A
  | B
  | C
  | D
  | E
  | H
  | L

/-- cpu.rs `Register16`: the register pairs. -/
inductive Register16 where
  | BC
  | DE
  | HL
  | PSW
  | SP

/-- cpu.rs `Cpu`: registers, flags, interrupt state, device latches and the
bus, with the bus representation left abstract in `M`. -/
@[ext]
structure Cpu (M : Type) where
  a : Nat
  b : Nat
  c : Nat
  d : Nat
  e : Nat
  h : Nat
  l : Nat
  pc : Nat
  sp : Nat
  conditions : Conditions
  interrupt_enabled : Bool
  memory : M
  wait_cycles : Nat
  interrupt_opcode : Option Nat
  devices : Nat → Nat
  output : Option (Nat × Nat)
  halted : Bool

variable {M : Type}

/-- cpu.rs `Cpu::new`. -/
def Cpu.new (memory : M) : Cpu M :=
  { a := 0, b := 0, c := 0, d := 0, e := 0, h := 0, l := 0
    pc := 0, sp := 0x2400
    conditions := Conditions.new
    interrupt_enabled := false
    memory := memory
    wait_cycles := 0
    interrupt_opcode := none
    devices := fun _ => 0
    output := none
    halted := false }

/-- cpu.rs `Cpu::get_one_byte_register`. -/
def get_one_byte_register (register : Register) (cpu : Cpu M) : Nat :=
  match register with
  | Register.B => cpu.b
  | Register.C => cpu.c
  | Register.D => cpu.d
  | Register.E => cpu.e
  | Register.H => cpu.h
  | Register.L => cpu.l
  | Register.A => cpu.a

/-- cpu.rs `Cpu::set_one_byte_register`. -/
def set_one_byte_register (value : Nat) (register : Register) (cpu : Cpu M) : Cpu M :=
  match register with
  | Register.B => { cpu with b := value }
  | Register.C => { cpu with c := value }
  | Register.D => { cpu with d := value }
  | Register.E => { cpu with e := value }
  | Register.H => { cpu with h := value }
  | Register.L => { cpu with l := value }
  | Register.A => { cpu with a := value }

/-- cpu.rs `Cpu::get_two_byte_register`; the source's PSW arm is an explicit
program abort, modelled as `none`. -/
def get_two_byte_register (register : Register16) (cpu : Cpu M) : Option Nat :=
  match register with
  | Register16.BC => some (concat_u8 cpu.b cpu.c)
  | Register16.DE => some (concat_u8 cpu.d cpu.e)
  | Register16.HL => some (concat_u8 cpu.h cpu.l)
  | Register16.SP => some cpu.sp
  | Register16.PSW => none

/-- cpu.rs `Cpu::set_two_byte_register`; the source's PSW arm is an explicit
program abort, modelled as `none`. -/
def set_two_byte_register (value : Nat) (register : Register16) (cpu : Cpu M) : Option (Cpu M) :=
  let (msb, lsb) := split_u16 value
  match register with
  | Register16.BC => some { cpu with c := lsb, b := msb }
  | Register16.DE => some { cpu with e := lsb, d := msb }
  | Register16.HL => some { cpu with l := lsb, h := msb }
  | Register16.SP => some { cpu with sp := value }
  | Register16.PSW => none

/-- cpu.rs `Cpu::fetch_byte`: read the byte at PC and advance PC by one
(a checked u16 increment).  Returns the advanced CPU and the byte. -/
def fetch_byte (ops : MemoryOps M) (cpu : Cpu M) : Option (Cpu M × Nat) := do
  let pc := cpu.pc
  let pc1 ← u16add cpu.pc 1
  pure ({ cpu with pc := pc1 }, ops.read cpu.memory pc)

/-- cpu.rs `Cpu::fetch_two_bytes`: read the little-endian immediate at PC and
advance PC by two (checked u16 arithmetic). -/
def fetch_two_bytes (ops : MemoryOps M) (cpu : Cpu M) : Option (Cpu M × Nat) := do
  let lsb := ops.read cpu.memory cpu.pc
  let a1 ← u16add cpu.pc 1
  let msb := ops.read cpu.memory a1
  let pc2 ← u16add cpu.pc 2
  pure ({ cpu with pc := pc2 }, concat_u8 msb lsb)

/-- cpu.rs `Cpu::add_sub_8bit`: the shared 16-bit ALU helper.  Sets Z, S, P
from the low byte and the auxiliary flag from the low-nibble add, and returns
the raw 9-bit result. -/
def add_sub_8bit (v1 v2 : Nat) (cpu : Cpu M) : Option (Cpu M × Nat) := do
  let result ← u16add v1 v2
  let lsb := result % 256
  let cond := cpu.conditions.set ConditionName.Zero (decide (lsb = 0))
  let cond := cond.set ConditionName.Sign (decide (0x80 ≤ lsb))
  let cond := cond.set ConditionName.Parity (decide (count_ones lsb % 2 = 0))
  let cond := cond.set ConditionName.Auxillary (check_half_carry_add v1 v2)
  pure ({ cpu with conditions := cond }, result)

/-! ### Instruction implementations (src/cpu.rs), in source order -/

/-- cpu.rs `Cpu::nop`. -/
def nop (cpu : Cpu M) : Option (Cpu M × Nat) := some (cpu, 3)

/-- cpu.rs `Cpu::lxi`. -/
def lxi (ops : MemoryOps M) (register : Register16) (cpu : Cpu M) : Option (Cpu M × Nat) := do
  let (cpu, immediate) ← fetch_two_bytes ops cpu
  let cpu ← set_two_byte_register immediate register cpu
  pure (cpu, 9)

/-- cpu.rs `Cpu::stax`. -/
def stax (ops : MemoryOps M) (register : Register16) (cpu : Cpu M) : Option (Cpu M × Nat) := do
  let addr ← get_two_byte_register register cpu
  pure ({ cpu with memory := ops.write cpu.memory addr cpu.a }, 6)

/-- cpu.rs `Cpu::sta`. -/
def sta (ops : MemoryOps M) (cpu : Cpu M) : Option (Cpu M × Nat) := do
  let (cpu, immediate) ← fetch_two_bytes ops cpu
  pure ({ cpu with memory := ops.write cpu.memory immediate cpu.a }, 12)

/-- cpu.rs `Cpu::inx` (wrapping 16-bit increment). -/
def inx (register : Register16) (cpu : Cpu M) : Option (Cpu M × Nat) := do
  let value ← get_two_byte_register register cpu
  let cpu ← set_two_byte_register (u16wrapping_add value 1) register cpu
  pure (cpu, 4)

/-- cpu.rs `Cpu::inr`. -/
def inr (register : Register) (cpu : Cpu M) : Option (Cpu M × Nat) := do
  let value := get_one_byte_register register cpu
  let (cpu, result) ← add_sub_8bit value 1 cpu
  pure (set_one_byte_register (result % 256) register cpu, 4)

/-- cpu.rs `Cpu::inrm`. -/
def inrm (ops : MemoryOps M) (cpu : Cpu M) : Option (Cpu M × Nat) := do
  let addr ← get_two_byte_register Register16.HL cpu
  let value := ops.read cpu.memory addr
  let (cpu, result) ← add_sub_8bit value 1 cpu
  pure ({ cpu with memory := ops.write cpu.memory addr (result % 256) }, 9)

/-- cpu.rs `Cpu::dcr` (adds the wrapping negation of 1). -/
def dcr (register : Register) (cpu : Cpu M) : Option (Cpu M × Nat) := do
  let value := get_one_byte_register register cpu
  let (cpu, result) ← add_sub_8bit value (u8wrapping_neg 1) cpu
  pure (set_one_byte_register (result % 256) register cpu, 4)

/-- cpu.rs `Cpu::dcrm`. -/
def dcrm (ops : MemoryOps M) (cpu : Cpu M) : Option (Cpu M × Nat) := do
  let addr ← get_two_byte_register Register16.HL cpu
  let value := ops.read cpu.memory addr
  let (cpu, result) ← add_sub_8bit value (u8wrapping_neg 1) cpu
  pure ({ cpu with memory := ops.write cpu.memory addr (result % 256) }, 9)

/-- cpu.rs `Cpu::mvi`. -/
def mvi (ops : MemoryOps M) (register : Register) (cpu : Cpu M) : Option (Cpu M × Nat) := do
  let (cpu, value) ← fetch_byte ops cpu
  pure (set_one_byte_register value register cpu, 6)

/-- cpu.rs `Cpu::mvim`. -/
def mvim (ops : MemoryOps M) (cpu : Cpu M) : Option (Cpu M × Nat) := do
  let (cpu, value) ← fetch_byte ops cpu
  let addr ← get_two_byte_register Register16.HL cpu
  pure ({ cpu with memory := ops.write cpu.memory addr value }, 9)

/-- cpu.rs `Cpu::rlc`: full rotate left, carry taken from the new bit 0. -/
def rlc (cpu : Cpu M) : Option (Cpu M × Nat) :=
  let a2 := u8rotate_left1 cpu.a
  some ({ cpu with
            a := a2,
            conditions := cpu.conditions.set ConditionName.Carry (decide (a2 &&& 0x1 = 1)) }, 3)

/-- cpu.rs `Cpu::rrc`: carry taken from the old bit 0, then full rotate right. -/
def rrc (cpu : Cpu M) : Option (Cpu M × Nat) :=
  some ({ cpu with
          conditions := cpu.conditions.set ConditionName.Carry (decide (cpu.a &&& 0x1 = 1)),
          a := u8rotate_right1 cpu.a }, 3)

/-- cpu.rs `Cpu::ral`: the source saves `a & 0x1` (the OLD BIT 0) as the new
carry, shifts A left, and ORs in the old carry flag at bit 0. -/
def ral (cpu : Cpu M) : Option (Cpu M × Nat) :=
  let carry := cpu.a &&& 0x1
  let a1 := ((cpu.a % 256) <<< 1) % 256
  let carry_bit : Nat := if cpu.conditions.get ConditionName.Carry then 1 else 0
  let a2 := a1 ||| carry_bit
  some ({ cpu with
            a := a2,
            conditions := cpu.conditions.set ConditionName.Carry (decide (carry = 1)) }, 3)

/-- cpu.rs `Cpu::rar`: saves the old bit 0 as the new carry, shifts A right,
and ORs in the old carry flag at bit 7. -/
def rar (cpu : Cpu M) : Option (Cpu M × Nat) :=
  let carry := cpu.a &&& 0x1
  let a1 := (cpu.a % 256) >>> 1
  let carry_bit : Nat := if cpu.conditions.get ConditionName.Carry then 1 else 0
  let a2 := a1 ||| ((carry_bit <<< 7) % 256)
  some ({ cpu with
            a := a2,
            conditions := cpu.conditions.set ConditionName.Carry (decide (carry = 1)) }, 3)

/-- cpu.rs `Cpu::dad`: 32-bit add of HL and the pair, carry if above 0xFFFF. -/
def dad (register : Register16) (cpu : Cpu M) : Option (Cpu M × Nat) := do
  let value ← get_two_byte_register register cpu
  let hl ← get_two_byte_register Register16.HL cpu
  let result ← u32add hl value
  let cpu := { cpu with
    conditions := cpu.conditions.set ConditionName.Carry (decide (65535 < result)) }
  let cpu ← set_two_byte_register (result % 65536) Register16.HL cpu
  pure (cpu, 9)

/-- cpu.rs `Cpu::ldax`. -/
def ldax (ops : MemoryOps M) (register : Register16) (cpu : Cpu M) : Option (Cpu M × Nat) := do
  let addr ← get_two_byte_register register cpu
  pure ({ cpu with a := ops.read cpu.memory addr }, 6)

/-- cpu.rs `Cpu::lda`. -/
def lda (ops : MemoryOps M) (cpu : Cpu M) : Option (Cpu M × Nat) := do
  let (cpu, immediate) ← fetch_two_bytes ops cpu
  pure ({ cpu with a := ops.read cpu.memory immediate }, 12)

/-- cpu.rs `Cpu::dcx` (wrapping 16-bit decrement). -/
def dcx (register : Register16) (cpu : Cpu M) : Option (Cpu M × Nat) := do
  let value ← get_two_byte_register register cpu
  let cpu ← set_two_byte_register (u16wrapping_sub value 1) register cpu
  pure (cpu, 4)

/-- cpu.rs `Cpu::shld` (the store at `immediate + 1` is a checked add). -/
def shld (ops : MemoryOps M) (cpu : Cpu M) : Option (Cpu M × Nat) := do
  let (cpu, immediate) ← fetch_two_bytes ops cpu
  let m1 := ops.write cpu.memory immediate cpu.l
  let a1 ← u16add immediate 1
  pure ({ cpu with memory := ops.write m1 a1 cpu.h }, 15)

/-- cpu.rs `Cpu::lhld` (the load at `immediate + 1` is a checked add). -/
def lhld (ops : MemoryOps M) (cpu : Cpu M) : Option (Cpu M × Nat) := do
  let (cpu, immediate) ← fetch_two_bytes ops cpu
  let a1 ← u16add immediate 1
  pure ({ cpu with l := ops.read cpu.memory immediate, h := ops.read cpu.memory a1 }, 15)

/-- cpu.rs `Cpu::cma` (bitwise complement of the accumulator byte). -/
def cma (cpu : Cpu M) : Option (Cpu M × Nat) :=
  some ({ cpu with a := (cpu.a % 256) ^^^ 0xFF }, 3)

/-- cpu.rs `Cpu::stc`. -/
def stc (cpu : Cpu M) : Option (Cpu M × Nat) :=
  some ({ cpu with conditions := cpu.conditions.set ConditionName.Carry true }, 3)

/-- cpu.rs `Cpu::cmc`. -/
def cmc (cpu : Cpu M) : Option (Cpu M × Nat) :=
  some ({ cpu with conditions :=
    cpu.conditions.set ConditionName.Carry (!(cpu.conditions.get ConditionName.Carry)) }, 3)

/-- cpu.rs `Cpu::mov`. -/
def mov (source destination : Register) (cpu : Cpu M) : Option (Cpu M × Nat) :=
  some (set_one_byte_register (get_one_byte_register source cpu) destination cpu, 4)

/-- cpu.rs `Cpu::movm_load`. -/
def movm_load (ops : MemoryOps M) (register : Register) (cpu : Cpu M) : Option (Cpu M × Nat) := do
  let addr ← get_two_byte_register Register16.HL cpu
  pure (set_one_byte_register (ops.read cpu.memory addr) register cpu, 6)

/-- cpu.rs `Cpu::movm`. -/
def movm (ops : MemoryOps M) (register : Register) (cpu : Cpu M) : Option (Cpu M × Nat) := do
  let addr ← get_two_byte_register Register16.HL cpu
  pure ({ cpu with memory := ops.write cpu.memory addr (get_one_byte_register register cpu) }, 6)

/-- cpu.rs `Cpu::add`: ALU add via `add_sub_8bit` on the old accumulator,
carry from bit 8 of the 9-bit result. -/
def add (register : Register) (cpu : Cpu M) : Option (Cpu M × Nat) := do
  let value := get_one_byte_register register cpu
  let (cpu2, result) ← add_sub_8bit cpu.a value cpu
  let cpu2 := { cpu2 with
    conditions := cpu2.conditions.set ConditionName.Carry (decide (255 < result)) }
  pure ({ cpu2 with a := result % 256 }, 3)

/-- cpu.rs `Cpu::addm`. -/
def addm (ops : MemoryOps M) (cpu : Cpu M) : Option (Cpu M × Nat) := do
  let addr ← get_two_byte_register Register16.HL cpu
  let value := ops.read cpu.memory addr
  let (cpu2, result) ← add_sub_8bit cpu.a value cpu
  let cpu2 := { cpu2 with
    conditions := cpu2.conditions.set ConditionName.Carry (decide (255 < result)) }
  pure ({ cpu2 with a := result % 256 }, 6)

/-- cpu.rs `Cpu::adc`: the source computes `value + carry` with an UNCHECKED
u8 add before the ALU call, so carry set with `value = 0xFF` is an overflow. -/
def adc (register : Register) (cpu : Cpu M) : Option (Cpu M × Nat) := do
  let value := get_one_byte_register register cpu
  let carry : Nat := if cpu.conditions.get ConditionName.Carry then 1 else 0
  let vc ← u8add value carry
  let (cpu2, result) ← add_sub_8bit cpu.a vc cpu
  let cpu2 := { cpu2 with
    conditions := cpu2.conditions.set ConditionName.Carry (decide (255 < result)) }
  pure ({ cpu2 with a := result % 256 }, 3)

/-- cpu.rs `Cpu::adcm`: same `value + carry` u8 add as `adc`. -/
def adcm (ops : MemoryOps M) (cpu : Cpu M) : Option (Cpu M × Nat) := do
  let addr ← get_two_byte_register Register16.HL cpu
  let value := ops.read cpu.memory addr
  let carry : Nat := if cpu.conditions.get ConditionName.Carry then 1 else 0
  let vc ← u8add value carry
  let (cpu2, result) ← add_sub_8bit cpu.a vc cpu
  let cpu2 := { cpu2 with
    conditions := cpu2.conditions.set ConditionName.Carry (decide (255 < result)) }
  pure ({ cpu2 with a := result % 256 }, 6)

/-- cpu.rs `Cpu::sub`: adds the two's complement of the operand; borrow is
`a < value` on the OLD accumulator. -/
def sub (register : Register) (cpu : Cpu M) : Option (Cpu M × Nat) := do
  let value := get_one_byte_register register cpu
  let (cpu2, result) ← add_sub_8bit cpu.a (u8wrapping_neg value) cpu
  let cpu2 := { cpu2 with
    conditions := cpu2.conditions.set ConditionName.Carry (decide (cpu.a < value)) }
  pure ({ cpu2 with a := result % 256 }, 3)

/-- cpu.rs `Cpu::subm`. -/
def subm (ops : MemoryOps M) (cpu : Cpu M) : Option (Cpu M × Nat) := do
  let addr ← get_two_byte_register Register16.HL cpu
  let value := ops.read cpu.memory addr
  let (cpu2, result) ← add_sub_8bit cpu.a (u8wrapping_neg value) cpu
  let cpu2 := { cpu2 with
    conditions := cpu2.conditions.set ConditionName.Carry (decide (cpu.a < value)) }
  pure ({ cpu2 with a := result % 256 }, 6)

/-- cpu.rs `Cpu::sbb`: the source computes
`value.wrapping_neg() + carry.wrapping_neg()` with an UNCHECKED u8 add, so
carry set with any nonzero operand is an overflow. -/
def sbb (register : Register) (cpu : Cpu M) : Option (Cpu M × Nat) := do
  let value := get_one_byte_register register cpu
  let carry : Nat := if cpu.conditions.get ConditionName.Carry then 1 else 0
  let vv ← u8add (u8wrapping_neg value) (u8wrapping_neg carry)
  let (cpu2, result) ← add_sub_8bit cpu.a vv cpu
  let cpu2 := { cpu2 with
    conditions := cpu2.conditions.set ConditionName.Carry (decide (cpu.a < value)) }
  pure ({ cpu2 with a := result % 256 }, 3)

/-- cpu.rs `Cpu::sbbm`: same unchecked u8 add as `sbb`. -/
def sbbm (ops : MemoryOps M) (cpu : Cpu M) : Option (Cpu M × Nat) := do
  let addr ← get_two_byte_register Register16.HL cpu
  let value := ops.read cpu.memory addr
  let carry : Nat := if cpu.conditions.get ConditionName.Carry then 1 else 0
  let vv ← u8add (u8wrapping_neg value) (u8wrapping_neg carry)
  let (cpu2, result) ← add_sub_8bit cpu.a vv cpu
  let cpu2 := { cpu2 with
    conditions := cpu2.conditions.set ConditionName.Carry (decide (cpu.a < value)) }
  pure ({ cpu2 with a := result % 256 }, 6)

/-- cpu.rs `Cpu::ana`: AND into A, then Z/S/P from the result and carry
cleared.  The auxiliary flag is NOT touched by the source. -/
def ana (register : Register) (cpu : Cpu M) : Option (Cpu M × Nat) :=
  let value := get_one_byte_register register cpu
  let a2 := cpu.a &&& value
  let cond := cpu.conditions.set ConditionName.Zero (decide (a2 = 0))
  let cond := cond.set ConditionName.Sign (decide (0x80 ≤ a2))
  let cond := cond.set ConditionName.Parity (decide (count_ones a2 % 2 = 0))
  let cond := cond.set ConditionName.Carry false
  some ({ cpu with a := a2, conditions := cond }, 3)

/-- cpu.rs `Cpu::anam`. -/
def anam (ops : MemoryOps M) (cpu : Cpu M) : Option (Cpu M × Nat) := do
  let addr ← get_two_byte_register Register16.HL cpu
  let value := ops.read cpu.memory addr
  let a2 := cpu.a &&& value
  let cond := cpu.conditions.set ConditionName.Zero (decide (a2 = 0))
  let cond := cond.set ConditionName.Sign (decide (0x80 ≤ a2))
  let cond := cond.set ConditionName.Parity (decide (count_ones a2 % 2 = 0))
  let cond := cond.set ConditionName.Carry false
  pure ({ cpu with a := a2, conditions := cond }, 6)

/-- cpu.rs `Cpu::xra`: XOR into A, Z/S/P from the result, carry cleared;
the auxiliary flag is NOT touched by the source. -/
def xra (register : Register) (cpu : Cpu M) : Option (Cpu M × Nat) :=
  let value := get_one_byte_register register cpu
  let a2 := cpu.a ^^^ value
  let cond := cpu.conditions.set ConditionName.Zero (decide (a2 = 0))
  let cond := cond.set ConditionName.Sign (decide (0x80 ≤ a2))
  let cond := cond.set ConditionName.Parity (decide (count_ones a2 % 2 = 0))
  let cond := cond.set ConditionName.Carry false
  some ({ cpu with a := a2, conditions := cond }, 3)

/-- cpu.rs `Cpu::xram`. -/
def xram (ops : MemoryOps M) (cpu : Cpu M) : Option (Cpu M × Nat) := do
  let addr ← get_two_byte_register Register16.HL cpu
  let value := ops.read cpu.memory addr
  let a2 := cpu.a ^^^ value
  let cond := cpu.conditions.set ConditionName.Zero (decide (a2 = 0))
  let cond := cond.set ConditionName.Sign (decide (0x80 ≤ a2))
  let cond := cond.set ConditionName.Parity (decide (count_ones a2 % 2 = 0))
  let cond := cond.set ConditionName.Carry false
  pure ({ cpu with a := a2, conditions := cond }, 6)

/-- cpu.rs `Cpu::ora`: OR into A, Z/S/P from the result, carry cleared;
the auxiliary flag is NOT touched by the source. -/
def ora (register : Register) (cpu : Cpu M) : Option (Cpu M × Nat) :=
  let value := get_one_byte_register register cpu
  let a2 := cpu.a ||| value
  let cond := cpu.conditions.set ConditionName.Zero (decide (a2 = 0))
  let cond := cond.set ConditionName.Sign (decide (0x80 ≤ a2))
  let cond := cond.set ConditionName.Parity (decide (count_ones a2 % 2 = 0))
  let cond := cond.set ConditionName.Carry false
  some ({ cpu with a := a2, conditions := cond }, 3)

/-- cpu.rs `Cpu::oram`. -/
def oram (ops : MemoryOps M) (cpu : Cpu M) : Option (Cpu M × Nat) := do
  let addr ← get_two_byte_register Register16.HL cpu
  let value := ops.read cpu.memory addr
  let a2 := cpu.a ||| value
  let cond := cpu.conditions.set ConditionName.Zero (decide (a2 = 0))
  let cond := cond.set ConditionName.Sign (decide (0x80 ≤ a2))
  let cond := cond.set ConditionName.Parity (decide (count_ones a2 % 2 = 0))
  let cond := cond.set ConditionName.Carry false
  pure ({ cpu with a := a2, conditions := cond }, 6)

/-- cpu.rs `Cpu::cmp`: flags of a subtract, result discarded. -/
def cmp_op (register : Register) (cpu : Cpu M) : Option (Cpu M × Nat) := do
  let value := get_one_byte_register register cpu
  let (cpu2, _result) ← add_sub_8bit cpu.a (u8wrapping_neg value) cpu
  pure ({ cpu2 with
    conditions := cpu2.conditions.set ConditionName.Carry (decide (cpu.a < value)) }, 3)

/-- cpu.rs `Cpu::cmpm`. -/
def cmpm (ops : MemoryOps M) (cpu : Cpu M) : Option (Cpu M × Nat) := do
  let addr ← get_two_byte_register Register16.HL cpu
  let value := ops.read cpu.memory addr
  let (cpu2, _result) ← add_sub_8bit cpu.a (u8wrapping_neg value) cpu
  pure ({ cpu2 with
    conditions := cpu2.conditions.set ConditionName.Carry (decide (cpu.a < value)) }, 6)

/-- cpu.rs `Cpu::pop`: reads SP and SP+1, fills the pair (PSW restores the
flags from the low byte), then SP increases by 2.  The source's SP arm is an
explicit program abort, modelled as `none`. -/
def pop (ops : MemoryOps M) (register : Register16) (cpu : Cpu M) : Option (Cpu M × Nat) := do
  let lsb := ops.read cpu.memory cpu.sp
  let a1 ← u16add cpu.sp 1
  let msb := ops.read cpu.memory a1
  let cpu ←
    match register with
    | Register16.BC => some { cpu with c := lsb, b := msb }
    | Register16.DE => some { cpu with e := lsb, d := msb }
    | Register16.HL => some { cpu with l := lsb, h := msb }
    | Register16.PSW =>
        some { cpu with conditions := cpu.conditions.restore_from_bits lsb, a := msb }
    | Register16.SP => none
  let sp2 ← u16add cpu.sp 2
  pure ({ cpu with sp := sp2 }, 9)

/-- cpu.rs `Cpu::push`: writes the low byte at SP-2 and the high byte at SP-1
(checked u16 subtractions), then SP decreases by 2.  The source's SP arm is an
explicit program abort, modelled as `none`. -/
def push (ops : MemoryOps M) (register : Register16) (cpu : Cpu M) : Option (Cpu M × Nat) := do
  let s2 ← u16sub cpu.sp 2
  let s1 ← u16sub cpu.sp 1
  let cpu ←
    match register with
    | Register16.BC =>
        some { cpu with memory := ops.write (ops.write cpu.memory s2 cpu.c) s1 cpu.b }
    | Register16.DE =>
        some { cpu with memory := ops.write (ops.write cpu.memory s2 cpu.e) s1 cpu.d }
    | Register16.HL =>
        some { cpu with memory := ops.write (ops.write cpu.memory s2 cpu.l) s1 cpu.h }
    | Register16.PSW =>
        some { cpu with
          memory := ops.write (ops.write cpu.memory s2 cpu.conditions.as_bits) s1 cpu.a }
    | Register16.SP => none
  pure ({ cpu with sp := s2 }, 10)

/-- cpu.rs `Cpu::rst`: pushes PC and jumps to `opcode & 0x38`. -/
def rst (ops : MemoryOps M) (opcode : Nat) (cpu : Cpu M) : Option (Cpu M × Nat) := do
  let destination := opcode &&& 0b00111000
  let s1 ← u16sub cpu.sp 1
  let m1 := ops.write cpu.memory s1 ((cpu.pc >>> 8) % 256)
  let s2 ← u16sub cpu.sp 2
  let m2 := ops.write m1 s2 (cpu.pc &&& 0xFF)
  pure ({ cpu with memory := m2, sp := s2, pc := destination }, 10)

/-- cpu.rs `Cpu::call`: fetches the target, pushes the advanced PC, jumps. -/
def call (ops : MemoryOps M) (cpu : Cpu M) : Option (Cpu M × Nat) := do
  let (cpu, immediate) ← fetch_two_bytes ops cpu
  let s1 ← u16sub cpu.sp 1
  let m1 := ops.write cpu.memory s1 ((cpu.pc >>> 8) % 256)
  let s2 ← u16sub cpu.sp 2
  let m2 := ops.write m1 s2 (cpu.pc &&& 0xFF)
  pure ({ cpu with memory := m2, sp := s2, pc := immediate }, 16)

/-- cpu.rs `Cpu::call_conditional`: like `call` when the flag matches,
otherwise PC skips the immediate. -/
def call_conditional (ops : MemoryOps M) (condition : ConditionName) (value : Bool)
    (cpu : Cpu M) : Option (Cpu M × Nat) :=
  if cpu.conditions.get condition = value then do
    let (cpu, immediate) ← fetch_two_bytes ops cpu
    let s1 ← u16sub cpu.sp 1
    let m1 := ops.write cpu.memory s1 ((cpu.pc >>> 8) % 256)
    let s2 ← u16sub cpu.sp 2
    let m2 := ops.write m1 s2 (cpu.pc &&& 0xFF)
    pure ({ cpu with memory := m2, sp := s2, pc := immediate }, 16)
  else do
    let pc2 ← u16add cpu.pc 2
    pure ({ cpu with pc := pc2 }, 10)

/-- cpu.rs `Cpu::ret`. -/
def ret (ops : MemoryOps M) (cpu : Cpu M) : Option (Cpu M × Nat) := do
  let a1 ← u16add cpu.sp 1
  let pc2 := concat_u8 (ops.read cpu.memory a1) (ops.read cpu.memory cpu.sp)
  let s2 ← u16add cpu.sp 2
  pure ({ cpu with pc := pc2, sp := s2 }, 9)

/-- cpu.rs `Cpu::ret_conditional`. -/
def ret_conditional (ops : MemoryOps M) (condition : ConditionName) (value : Bool)
    (cpu : Cpu M) : Option (Cpu M × Nat) :=
  if cpu.conditions.get condition = value then do
    let a1 ← u16add cpu.sp 1
    let pc2 := concat_u8 (ops.read cpu.memory a1) (ops.read cpu.memory cpu.sp)
    let s2 ← u16add cpu.sp 2
    pure ({ cpu with pc := pc2, sp := s2 }, 10)
  else
    some (cpu, 4)

/-- cpu.rs `Cpu::jmp`. -/
def jmp (ops : MemoryOps M) (cpu : Cpu M) : Option (Cpu M × Nat) := do
  let (cpu, immediate) ← fetch_two_bytes ops cpu
  pure ({ cpu with pc := immediate }, 9)

/-- cpu.rs `Cpu::jmp_conditional`. -/
def jmp_conditional (ops : MemoryOps M) (condition : ConditionName) (value : Bool)
    (cpu : Cpu M) : Option (Cpu M × Nat) :=
  if cpu.conditions.get condition = value then do
    let (cpu, immediate) ← fetch_two_bytes ops cpu
    pure ({ cpu with pc := immediate }, 9)
  else do
    let pc2 ← u16add cpu.pc 2
    pure ({ cpu with pc := pc2 }, 9)

/-- cpu.rs `Cpu::xthl`: swap HL with the two stack-top bytes. -/
def xthl (ops : MemoryOps M) (cpu : Cpu M) : Option (Cpu M × Nat) := do
  let lval := ops.read cpu.memory cpu.sp
  let a1 ← u16add cpu.sp 1
  let hval := ops.read cpu.memory a1
  let m1 := ops.write cpu.memory cpu.sp cpu.l
  let m2 := ops.write m1 a1 cpu.h
  pure ({ cpu with memory := m2, l := lval, h := hval }, 17)

/-- cpu.rs `Cpu::pchl`. -/
def pchl (cpu : Cpu M) : Option (Cpu M × Nat) := do
  let hl ← get_two_byte_register Register16.HL cpu
  pure ({ cpu with pc := hl }, 4)

/-- cpu.rs `Cpu::sphl`. -/
def sphl (cpu : Cpu M) : Option (Cpu M × Nat) := do
  let hl ← get_two_byte_register Register16.HL cpu
  pure ({ cpu with sp := hl }, 4)

/-- cpu.rs `Cpu::xchg`. -/
def xchg (cpu : Cpu M) : Option (Cpu M × Nat) :=
  some ({ cpu with d := cpu.h, e := cpu.l, h := cpu.d, l := cpu.e }, 4)

/-- cpu.rs `Cpu::device_in`: IN reads the latched input-port byte. -/
def device_in (ops : MemoryOps M) (cpu : Cpu M) : Option (Cpu M × Nat) := do
  let (cpu, device) ← fetch_byte ops cpu
  pure ({ cpu with a := cpu.devices device }, 9)

/-- cpu.rs `Cpu::device_out`: OUT publishes the `(port, value)` pair. -/
def device_out (ops : MemoryOps M) (cpu : Cpu M) : Option (Cpu M × Nat) := do
  let (cpu, device) ← fetch_byte ops cpu
  pure ({ cpu with output := some (device, cpu.a) }, 9)

/-- cpu.rs `Cpu::ei` (via `enable_interrupts`). -/
def ei (cpu : Cpu M) : Option (Cpu M × Nat) :=
  some ({ cpu with interrupt_enabled := true }, 3)

/-- cpu.rs `Cpu::di` (via `disable_interrupts`). -/
def di (cpu : Cpu M) : Option (Cpu M × Nat) :=
  some ({ cpu with interrupt_enabled := false }, 3)

/-- cpu.rs `Cpu::halt`. -/
def halt (cpu : Cpu M) : Option (Cpu M × Nat) :=
  some ({ cpu with halted := true }, 6)

/-- cpu.rs `Cpu::adi`. -/
def adi (ops : MemoryOps M) (cpu : Cpu M) : Option (Cpu M × Nat) := do
  let (cpu, value) ← fetch_byte ops cpu
  let result ← u16add cpu.a value
  let lsb := result % 256
  let cond := cpu.conditions.set ConditionName.Zero (decide (lsb = 0))
  let cond := cond.set ConditionName.Sign (decide (0x80 ≤ lsb))
  let cond := cond.set ConditionName.Parity (decide (count_ones lsb % 2 = 0))
  let cond := cond.set ConditionName.Auxillary (check_half_carry_add cpu.a value)
  let cond := cond.set ConditionName.Carry (decide (0xFF < result))
  pure ({ cpu with conditions := cond, a := lsb }, 6)

/-- cpu.rs `Cpu::aci`: the source computes `(value + carry) as u16` where the
inner add is an UNCHECKED u8 add, so carry set with `value = 0xFF` overflows;
the auxiliary flag is derived from the operand WITHOUT the carry. -/
def aci (ops : MemoryOps M) (cpu : Cpu M) : Option (Cpu M × Nat) := do
  let carry : Nat := if cpu.conditions.get ConditionName.Carry then 1 else 0
  let (cpu, value) ← fetch_byte ops cpu
  let vc ← u8add value carry
  let result ← u16add cpu.a vc
  let lsb := result % 256
  let cond := cpu.conditions.set ConditionName.Zero (decide (lsb = 0))
  let cond := cond.set ConditionName.Sign (decide (0x80 ≤ lsb))
  let cond := cond.set ConditionName.Parity (decide (count_ones lsb % 2 = 0))
  let cond := cond.set ConditionName.Auxillary (check_half_carry_add cpu.a value)
  let cond := cond.set ConditionName.Carry (decide (0xFF < result))
  pure ({ cpu with conditions := cond, a := lsb }, 6)

/-- cpu.rs `Cpu::sui`. -/
def sui (ops : MemoryOps M) (cpu : Cpu M) : Option (Cpu M × Nat) := do
  let (cpu, value) ← fetch_byte ops cpu
  let result ← u16add cpu.a (u8wrapping_neg value)
  let lsb := result % 256
  let cond := cpu.conditions.set ConditionName.Zero (decide (lsb = 0))
  let cond := cond.set ConditionName.Sign (decide (0x80 ≤ lsb))
  let cond := cond.set ConditionName.Parity (decide (count_ones lsb % 2 = 0))
  let cond := cond.set ConditionName.Auxillary (check_half_carry_sub cpu.a value)
  let cond := cond.set ConditionName.Carry (decide (cpu.a < value))
  pure ({ cpu with conditions := cond, a := lsb }, 6)

/-- cpu.rs `Cpu::sbi`: here both negations are widened to u16 BEFORE the adds,
so unlike `sbb` there is no u8 overflow. -/
def sbi (ops : MemoryOps M) (cpu : Cpu M) : Option (Cpu M × Nat) := do
  let carry : Nat := if cpu.conditions.get ConditionName.Carry then 1 else 0
  let (cpu, value) ← fetch_byte ops cpu
  let inner ← u16add (u8wrapping_neg value) (u8wrapping_neg carry)
  let result ← u16add cpu.a inner
  let lsb := result % 256
  let cond := cpu.conditions.set ConditionName.Zero (decide (lsb = 0))
  let cond := cond.set ConditionName.Sign (decide (0x80 ≤ lsb))
  let cond := cond.set ConditionName.Parity (decide (count_ones lsb % 2 = 0))
  let cond := cond.set ConditionName.Auxillary (check_half_carry_sub cpu.a value)
  let cond := cond.set ConditionName.Carry (decide (cpu.a < value))
  pure ({ cpu with conditions := cond, a := lsb }, 6)

/-- cpu.rs `Cpu::ani`: immediate AND; like `ana`, the auxiliary flag is NOT
touched by the source. -/
def ani (ops : MemoryOps M) (cpu : Cpu M) : Option (Cpu M × Nat) := do
  let (cpu, value) ← fetch_byte ops cpu
  let a2 := cpu.a &&& value
  let cond := cpu.conditions.set ConditionName.Zero (decide (a2 = 0))
  let cond := cond.set ConditionName.Sign (decide (0x80 ≤ a2))
  let cond := cond.set ConditionName.Parity (decide (count_ones a2 % 2 = 0))
  let cond := cond.set ConditionName.Carry false
  pure ({ cpu with a := a2, conditions := cond }, 6)

/-- cpu.rs `Cpu::xri`. -/
def xri (ops : MemoryOps M) (cpu : Cpu M) : Option (Cpu M × Nat) := do
  let (cpu, value) ← fetch_byte ops cpu
  let a2 := cpu.a ^^^ value
  let cond := cpu.conditions.set ConditionName.Zero (decide (a2 = 0))
  let cond := cond.set ConditionName.Sign (decide (0x80 ≤ a2))
  let cond := cond.set ConditionName.Parity (decide (count_ones a2 % 2 = 0))
  let cond := cond.set ConditionName.Carry false
  pure ({ cpu with a := a2, conditions := cond }, 6)

/-- cpu.rs `Cpu::ori`. -/
def ori (ops : MemoryOps M) (cpu : Cpu M) : Option (Cpu M × Nat) := do
  let (cpu, value) ← fetch_byte ops cpu
  let a2 := cpu.a ||| value
  let cond := cpu.conditions.set ConditionName.Zero (decide (a2 = 0))
  let cond := cond.set ConditionName.Sign (decide (0x80 ≤ a2))
  let cond := cond.set ConditionName.Parity (decide (count_ones a2 % 2 = 0))
  let cond := cond.set ConditionName.Carry false
  pure ({ cpu with a := a2, conditions := cond }, 6)

/-- cpu.rs `Cpu::cpi`. -/
def cpi (ops : MemoryOps M) (cpu : Cpu M) : Option (Cpu M × Nat) := do
  let (cpu, value) ← fetch_byte ops cpu
  let result ← u16add cpu.a (u8wrapping_neg value)
  let lsb := result % 256
  let cond := cpu.conditions.set ConditionName.Zero (decide (lsb = 0))
  let cond := cond.set ConditionName.Sign (decide (0x80 ≤ lsb))
  let cond := cond.set ConditionName.Parity (decide (count_ones lsb % 2 = 0))
  let cond := cond.set ConditionName.Auxillary (check_half_carry_sub cpu.a value)
  let cond := cond.set ConditionName.Carry (decide (cpu.a < value))
  pure ({ cpu with conditions := cond }, 6)

/-- cpu.rs `Cpu::daa`: low-nibble adjust (the `a + 6` is an UNCHECKED u8 add),
then high-nibble adjust, then Z/S/P. -/
def daa (cpu : Cpu M) : Option (Cpu M × Nat) := do
  let cpu ←
    if decide (9 < cpu.a &&& 0x0F) || cpu.conditions.get ConditionName.Auxillary then do
      let cond := cpu.conditions.set ConditionName.Auxillary (check_half_carry_add cpu.a 6)
      let a2 ← u8add cpu.a 6
      pure { cpu with conditions := cond, a := a2 }
    else pure cpu
  let cpu ←
    if decide (9 < (cpu.a &&& 0xF0) >>> 4) || cpu.conditions.get ConditionName.Carry then do
      let upper ← u8add ((cpu.a &&& 0xF0) >>> 4) 6
      let cond := cpu.conditions.set ConditionName.Carry (decide (0xF < upper))
      pure { cpu with conditions := cond, a := ((upper <<< 4) % 256) ||| (cpu.a &&& 0x0F) }
    else pure cpu
  let cond := cpu.conditions.set ConditionName.Zero (decide (cpu.a = 0))
  let cond := cond.set ConditionName.Sign (decide (0x80 ≤ cpu.a))
  let cond := cond.set ConditionName.Parity (decide (count_ones cpu.a % 2 = 0))
  pure ({ cpu with conditions := cond }, 3)

set_option maxHeartbeats 3200000 in
/-- cpu.rs `Cpu::dispatch`: the source's exhaustive u8 opcode match, arm for
arm and in source order.  The final wildcard is the source's `0xfe => cpi`
arm (the match is exhaustive over bytes; opcodes are always below 0x100). -/
def dispatch (ops : MemoryOps M) (instruction : Nat) (cpu : Cpu M) : Option (Cpu M × Nat) :=
  match instruction with
  | 0x00 | 0x08 | 0x10 | 0x18 | 0x20 | 0x28 | 0x30 | 0x38 => nop cpu
  | 0x1 => lxi ops Register16.BC cpu
  | 0x2 => stax ops Register16.BC cpu
  | 0x3 => inx Register16.BC cpu
  | 0x4 => inr Register.B cpu
  | 0x5 => dcr Register.B cpu
  | 0x6 => mvi ops Register.B cpu
  | 0x7 => rlc cpu
  | 0x9 => dad Register16.BC cpu
  | 0xa => ldax ops Register16.BC cpu
  | 0xb => dcx Register16.BC cpu
  | 0xc => inr Register.C cpu
  | 0xd => dcr Register.C cpu
  | 0xe => mvi ops Register.C cpu
  | 0xf => rrc cpu
  | 0x11 => lxi ops Register16.DE cpu
  | 0x12 => stax ops Register16.DE cpu
  | 0x13 => inx Register16.DE cpu
  | 0x14 => inr Register.D cpu
  | 0x15 => dcr Register.D cpu
  | 0x16 => mvi ops Register.D cpu
  | 0x17 => ral cpu
  | 0x19 => dad Register16.DE cpu
  | 0x1a => ldax ops Register16.DE cpu
  | 0x1b => dcx Register16.DE cpu
  | 0x1c => inr Register.E cpu
  | 0x1d => dcr Register.E cpu
  | 0x1e => mvi ops Register.E cpu
  | 0x1f => rar cpu
  | 0x21 => lxi ops Register16.HL cpu
  | 0x22 => shld ops cpu
  | 0x23 => inx Register16.HL cpu
  | 0x24 => inr Register.H cpu
  | 0x25 => dcr Register.H cpu
  | 0x26 => mvi ops Register.H cpu
  | 0x27 => daa cpu
  | 0x29 => dad Register16.HL cpu
  | 0x2a => lhld ops cpu
  | 0x2b => dcx Register16.HL cpu
  | 0x2c => inr Register.L cpu
  | 0x2d => dcr Register.L cpu
  | 0x2e => mvi ops Register.L cpu
  | 0x2f => cma cpu
  | 0x31 => lxi ops Register16.SP cpu
  | 0x32 => sta ops cpu
  | 0x33 => inx Register16.SP cpu
  | 0x34 => inrm ops cpu
  | 0x35 => dcrm ops cpu
  | 0x36 => mvim ops cpu
  | 0x37 => stc cpu
  | 0x39 => dad Register16.SP cpu
  | 0x3a => lda ops cpu
  | 0x3b => dcx Register16.SP cpu
  | 0x3c => inr Register.A cpu
  | 0x3d => dcr Register.A cpu
  | 0x3e => mvi ops Register.A cpu
  | 0x3f => cmc cpu
  | 0x40 => mov Register.B Register.B cpu
  | 0x41 => mov Register.C Register.B cpu
  | 0x42 => mov Register.D Register.B cpu
  | 0x43 => mov Register.E Register.B cpu
  | 0x44 => mov Register.H Register.B cpu
  | 0x45 => mov Register.L Register.B cpu
  | 0x46 => movm_load ops Register.B cpu
  | 0x47 => mov Register.A Register.B cpu
  | 0x48 => mov Register.B Register.C cpu
  | 0x49 => mov Register.C Register.C cpu
  | 0x4a => mov Register.D Register.C cpu
  | 0x4b => mov Register.E Register.C cpu
  | 0x4c => mov Register.H Register.C cpu
  | 0x4d => mov Register.L Register.C cpu
  | 0x4e => movm_load ops Register.C cpu
  | 0x4f => mov Register.A Register.C cpu
  | 0x50 => mov Register.B Register.D cpu
  | 0x51 => mov Register.C Register.D cpu
  | 0x52 => mov Register.D Register.D cpu
  | 0x53 => mov Register.E Register.D cpu
  | 0x54 => mov Register.H Register.D cpu
  | 0x55 => mov Register.L Register.D cpu
  | 0x56 => movm_load ops Register.D cpu
  | 0x57 => mov Register.A Register.D cpu
  | 0x58 => mov Register.B Register.E cpu
  | 0x59 => mov Register.C Register.E cpu
  | 0x5a => mov Register.D Register.E cpu
  | 0x5b => mov Register.E Register.E cpu
  | 0x5c => mov Register.H Register.E cpu
  | 0x5d => mov Register.L Register.E cpu
  | 0x5e => movm_load ops Register.E cpu
  | 0x5f => mov Register.A Register.E cpu
  | 0x60 => mov Register.B Register.H cpu
  | 0x61 => mov Register.C Register.H cpu
  | 0x62 => mov Register.D Register.H cpu
  | 0x63 => mov Register.E Register.H cpu
  | 0x64 => mov Register.H Register.H cpu
  | 0x65 => mov Register.L Register.H cpu
  | 0x66 => movm_load ops Register.H cpu
  | 0x67 => mov Register.A Register.H cpu
  | 0x68 => mov Register.B Register.L cpu
  | 0x69 => mov Register.C Register.L cpu
  | 0x6a => mov Register.D Register.L cpu
  | 0x6b => mov Register.E Register.L cpu
  | 0x6c => mov Register.H Register.L cpu
  | 0x6d => mov Register.L Register.L cpu
  | 0x6e => movm_load ops Register.L cpu
  | 0x6f => mov Register.A Register.L cpu
  | 0x70 => movm ops Register.B cpu
  | 0x71 => movm ops Register.C cpu
  | 0x72 => movm ops Register.D cpu
  | 0x73 => movm ops Register.E cpu
  | 0x74 => movm ops Register.H cpu
  | 0x75 => movm ops Register.L cpu
  | 0x76 => halt cpu
  | 0x77 => movm ops Register.A cpu
  | 0x78 => mov Register.B Register.A cpu
  | 0x79 => mov Register.C Register.A cpu
  | 0x7a => mov Register.D Register.A cpu
  | 0x7b => mov Register.E Register.A cpu
  | 0x7c => mov Register.H Register.A cpu
  | 0x7d => mov Register.L Register.A cpu
  | 0x7e => movm_load ops Register.A cpu
  | 0x7f => mov Register.A Register.A cpu
  | 0x80 => add Register.B cpu
  | 0x81 => add Register.C cpu
  | 0x82 => add Register.D cpu
  | 0x83 => add Register.E cpu
  | 0x84 => add Register.H cpu
  | 0x85 => add Register.L cpu
  | 0x86 => addm ops cpu
  | 0x87 => add Register.A cpu
  | 0x88 => adc Register.B cpu
  | 0x89 => adc Register.C cpu
  | 0x8a => adc Register.D cpu
  | 0x8b => adc Register.E cpu
  | 0x8c => adc Register.H cpu
  | 0x8d => adc Register.L cpu
  | 0x8e => adcm ops cpu
  | 0x8f => adc Register.A cpu
  | 0x90 => sub Register.B cpu
  | 0x91 => sub Register.C cpu
  | 0x92 => sub Register.D cpu
  | 0x93 => sub Register.E cpu
  | 0x94 => sub Register.H cpu
  | 0x95 => sub Register.L cpu
  | 0x96 => subm ops cpu
  | 0x97 => sub Register.A cpu
  | 0x98 => sbb Register.B cpu
  | 0x99 => sbb Register.C cpu
  | 0x9a => sbb Register.D cpu
  | 0x9b => sbb Register.E cpu
  | 0x9c => sbb Register.H cpu
  | 0x9d => sbb Register.L cpu
  | 0x9e => sbbm ops cpu
  | 0x9f => sbb Register.A cpu
  | 0xa0 => ana Register.B cpu
  | 0xa1 => ana Register.C cpu
  | 0xa2 => ana Register.D cpu
  | 0xa3 => ana Register.E cpu
  | 0xa4 => ana Register.H cpu
  | 0xa5 => ana Register.L cpu
  | 0xa6 => anam ops cpu
  | 0xa7 => ana Register.A cpu
  | 0xa8 => xra Register.B cpu
  | 0xa9 => xra Register.C cpu
  | 0xaa => xra Register.D cpu
  | 0xab => xra Register.E cpu
  | 0xac => xra Register.H cpu
  | 0xad => xra Register.L cpu
  | 0xae => xram ops cpu
  | 0xaf => xra Register.A cpu
  | 0xb0 => ora Register.B cpu
  | 0xb1 => ora Register.C cpu
  | 0xb2 => ora Register.D cpu
  | 0xb3 => ora Register.E cpu
  | 0xb4 => ora Register.H cpu
  | 0xb5 => ora Register.L cpu
  | 0xb6 => oram ops cpu
  | 0xb7 => ora Register.A cpu
  | 0xb8 => cmp_op Register.B cpu
  | 0xb9 => cmp_op Register.C cpu
  | 0xba => cmp_op Register.D cpu
  | 0xbb => cmp_op Register.E cpu
  | 0xbc => cmp_op Register.H cpu
  | 0xbd => cmp_op Register.L cpu
  | 0xbe => cmpm ops cpu
  | 0xbf => cmp_op Register.A cpu
  | 0xc0 => ret_conditional ops ConditionName.Zero false cpu
  | 0xc1 => pop ops Register16.BC cpu
  | 0xc2 => jmp_conditional ops ConditionName.Zero false cpu
  | 0xc3 | 0xcb => jmp ops cpu
  | 0xc4 => call_conditional ops ConditionName.Zero false cpu
  | 0xc5 => push ops Register16.BC cpu
  | 0xc6 => adi ops cpu
  | 0xc7 | 0xcf | 0xd7 | 0xdf | 0xe7 | 0xef | 0xf7 | 0xff => rst ops instruction cpu
  | 0xc8 => ret_conditional ops ConditionName.Zero true cpu
  | 0xc9 | 0xd9 => ret ops cpu
  | 0xca => jmp_conditional ops ConditionName.Zero true cpu
  | 0xcc => call_conditional ops ConditionName.Zero true cpu
  | 0xcd | 0xdd | 0xed | 0xfd => call ops cpu
  | 0xce => aci ops cpu
  | 0xd0 => ret_conditional ops ConditionName.Carry false cpu
  | 0xd1 => pop ops Register16.DE cpu
  | 0xd2 => jmp_conditional ops ConditionName.Carry false cpu
  | 0xd3 => device_out ops cpu
  | 0xd4 => call_conditional ops ConditionName.Carry false cpu
  | 0xd5 => push ops Register16.DE cpu
  | 0xd6 => sui ops cpu
  | 0xd8 => ret_conditional ops ConditionName.Carry true cpu
  | 0xda => jmp_conditional ops ConditionName.Carry true cpu
  | 0xdb => device_in ops cpu
  | 0xdc => call_conditional ops ConditionName.Carry true cpu
  | 0xde => sbi ops cpu
  | 0xe0 => ret_conditional ops ConditionName.Parity false cpu
  | 0xe1 => pop ops Register16.HL cpu
  | 0xe2 => jmp_conditional ops ConditionName.Parity false cpu
  | 0xe3 => xthl ops cpu
  | 0xe4 => call_conditional ops ConditionName.Parity false cpu
  | 0xe5 => push ops Register16.HL cpu
  | 0xe6 => ani ops cpu
  | 0xe8 => ret_conditional ops ConditionName.Parity true cpu
  | 0xe9 => pchl cpu
  | 0xea => jmp_conditional ops ConditionName.Parity true cpu
  | 0xeb => xchg cpu
  | 0xec => call_conditional ops ConditionName.Parity true cpu
  | 0xee => xri ops cpu
  | 0xf0 => ret_conditional ops ConditionName.Sign false cpu
  | 0xf1 => pop ops Register16.PSW cpu
  | 0xf2 => jmp_conditional ops ConditionName.Sign false cpu
  | 0xf3 => di cpu
  | 0xf4 => call_conditional ops ConditionName.Sign false cpu
  | 0xf5 => push ops Register16.PSW cpu
  | 0xf6 => ori ops cpu
  | 0xf8 => ret_conditional ops ConditionName.Sign true cpu
  | 0xf9 => sphl cpu
  | 0xfa => jmp_conditional ops ConditionName.Sign true cpu
  | 0xfb => ei cpu
  | 0xfc => call_conditional ops ConditionName.Sign true cpu
  | _ => cpi ops cpu

/-- cpu.rs `Cpu::tick`: the machine-cycle protocol.  A waiting CPU only
decrements the debt counter; otherwise a disabled-interrupt latch is dropped,
a pending interrupt is consumed (clearing halted, disabling interrupts,
without touching PC), a halted CPU idles, and otherwise the opcode is fetched
at PC.  The dispatched instruction's cycle count becomes the new debt. -/
def tick (ops : MemoryOps M) (cpu : Cpu M) : Option (Cpu M) :=
  if cpu.wait_cycles > 0 then
    some { cpu with wait_cycles := cpu.wait_cycles - 1 }
  else
    let cpu1 := if !cpu.interrupt_enabled then { cpu with interrupt_opcode := none } else cpu
    match cpu1.interrupt_opcode with
    | some x =>
        let cpu2 := { cpu1 with halted := false, interrupt_enabled := false,
                                interrupt_opcode := none }
        (dispatch ops x cpu2).map fun p => { p.1 with wait_cycles := p.2 }
    | none =>
        if cpu1.halted then some cpu1
        else
          match fetch_byte ops cpu1 with
          | none => none
          | some (cpu2, instruction) =>
              (dispatch ops instruction cpu2).map fun p => { p.1 with wait_cycles := p.2 }

/-- cpu.rs `Cpu::receive_interrupt`: latch the opcode unconditionally. -/
def receive_interrupt (interrupt : Nat) (cpu : Cpu M) : Cpu M :=
  { cpu with interrupt_opcode := some interrupt }

/-- cpu.rs `Cpu::set_input`: deposit a byte in an input-port latch. -/
def set_input (device value : Nat) (cpu : Cpu M) : Cpu M :=
  { cpu with devices := fun i => if i = device then value else cpu.devices i }

/-- cpu.rs `Cpu::get_output`: drain the published OUT pair. -/
def get_output (cpu : Cpu M) : Option (Nat × Nat) × Cpu M :=
  (cpu.output, { cpu with output := none })

/-! ## Frame driver OUT-port routing (src/application.rs) -/

/-- State owned by the frame driver's emulator loop: the shift device, the
two remembered sound-port bytes, whether the audio device opened, and the
play-sound calls issued so far (most recent last). -/
structure DriverState where
  shift_register : Nat
  shift_register_offest : Nat
  last_device3 : Nat
  last_device5 : Nat
  audio : Bool
  sounds : List Nat

/-- application.rs port 3 edge detection: a sample plays on each 0 to 1
transition of bits 0 to 3 relative to the remembered byte. -/
def edge_sounds3 (last value : Nat) : List Nat :=
  (if value &&& 0b00000001 = 0b00000001 ∧ ¬ last &&& 0b00000001 = 0b00000001 then [0] else [])
  ++ (if value &&& 0b00000010 = 0b00000010 ∧ ¬ last &&& 0b00000010 = 0b00000010 then [1] else [])
  ++ (if value &&& 0b00000100 = 0b00000100 ∧ ¬ last &&& 0b00000100 = 0b00000100 then [2] else [])
  ++ (if value &&& 0b00001000 = 0b00001000 ∧ ¬ last &&& 0b00001000 = 0b00001000 then [3] else [])

/-- application.rs port 5 edge detection over bits 0 to 4. -/
def edge_sounds5 (last value : Nat) : List Nat :=
  (if value &&& 0b00000001 = 0b00000001 ∧ ¬ last &&& 0b00000001 = 0b00000001 then [4] else [])
  ++ (if value &&& 0b00000010 = 0b00000010 ∧ ¬ last &&& 0b00000010 = 0b00000010 then [5] else [])
  ++ (if value &&& 0b00000100 = 0b00000100 ∧ ¬ last &&& 0b00000100 = 0b00000100 then [6] else [])
  ++ (if value &&& 0b00001000 = 0b00001000 ∧ ¬ last &&& 0b00001000 = 0b00001000 then [7] else [])
  ++ (if value &&& 0b00010000 = 0b00010000 ∧ ¬ last &&& 0b00010000 = 0b00010000 then [8] else [])

/-- application.rs `App::new`, emulator-thread loop, `match device` over a
drained OUT pair: port 2 latches the shift offset, ports 3 and 5 drive the
edge-triggered samples (only when the audio device opened), port 4 shifts the
new high byte into the shift register, port 6 is the ignored watchdog, and
EVERY OTHER PORT is an explicit program abort, modelled as `none`. -/
def handle_output (s : DriverState) (device value : Nat) : Option DriverState :=
  if device = 2 then some { s with shift_register_offest := value &&& 0x07 }
  else if device = 3 then some (if s.audio then
        { s with sounds := s.sounds ++ edge_sounds3 s.last_device3 value,
                 last_device3 := value }
      else s)
  else if device = 4 then some { s with
      shift_register := (((value <<< 8) % 65536) ||| ((s.shift_register % 65536) >>> 8)) }
  else if device = 5 then some (if s.audio then
        { s with sounds := s.sounds ++ edge_sounds5 s.last_device5 value,
                 last_device5 := value }
      else s)
  else if device = 6 then some s
  else none

/-! ## Concrete inputs used by the claim evaluations -/

/-- An 8 KiB ROM image whose byte 0 is 0xAB and whose other bytes are 0. -/
def romC1 : Nat → Nat := fun a => if a = 0 then 0xAB else 0

/-- A fresh frame-driver state with the audio device open. -/
def driver0 : DriverState :=
  { shift_register := 0, shift_register_offest := 0, last_device3 := 0,
    last_device5 := 0, audio := true, sounds := [] }

/-- A CPU on the flat test bus with the carry flag set and B = 0xFF. -/
def cpuC3 : Cpu BMem :=
  { Cpu.new basic_new with b := 0xFF, conditions := { Conditions.new with carry := true } }

/-- A CPU with A = 0x80 (bit 7 set, bit 0 clear) and the carry flag clear. -/
def cpuC4 : Cpu BMem := { Cpu.new basic_new with a := 0x80 }

/-- A CPU with A = B = 0x08 (both bit-3 operands set) and all flags clear. -/
def cpuC5and : Cpu BMem := { Cpu.new basic_new with a := 8, b := 8 }

/-- A CPU with A = B = 0 and the auxiliary flag set. -/
def cpuC5xor : Cpu BMem :=
  { Cpu.new basic_new with conditions := { Conditions.new with aux := true } }

/-- A CPU with A = 0x01 and B = 0xFF (the spec's scenario S2 operands). -/
def cpuC6 : Cpu BMem := { Cpu.new basic_new with a := 1, b := 255 }

/-- A CPU with interrupts enabled and a pending NOP interrupt opcode. -/
def cpuC7 : Cpu BMem :=
  { Cpu.new basic_new with interrupt_enabled := true, interrupt_opcode := some 0 }

/-- A CPU owing five wait cycles. -/
def cpuC9 : Cpu BMem := { Cpu.new basic_new with wait_cycles := 5 }

/-! ## Helper lemmas -/

/-- A u16 addition whose mathematical sum fits in 16 bits succeeds. -/
theorem u16add_eq_some (x y : Nat) (h : x + y ≤ 65535) : u16add x y = some (x + y) := by
  simp [u16add, checkedAdd, h]

/-- Bit 4 of a sum of two nibbles is set exactly when the sum reaches 16. -/
theorem hcadd_table : ∀ n : Fin 31,
    (decide ((n.val % 256) &&& 16 = 16)) = decide (16 ≤ n.val) := by decide

/-- The source's half-carry predicate agrees with the specification's
`(x & 0xF) + (y & 0xF) ≥ 0x10` formulation. -/
theorem check_half_carry_add_eq (x y : Nat) :
    check_half_carry_add x y = decide (16 ≤ (x &&& 15) + (y &&& 15)) := by
  have hx : x &&& 15 ≤ 15 := Nat.and_le_right
  have hy : y &&& 15 ≤ 15 := Nat.and_le_right
  have h := hcadd_table ⟨(x &&& 15) + (y &&& 15), by omega⟩
  simpa [check_half_carry_add] using h

set_option maxRecDepth 8192 in
/-- Packing after unpacking preserves the PSW byte on bits 0, 2, 4, 6 and 7
(mask 0xD5), checked over all 256 byte values. -/
theorem mask_table : ∀ bf : Fin 256,
    (Conditions.new.restore_from_bits bf.val).as_bits &&& 0xD5 = bf.val &&& 0xD5 := by decide

/-! ## Claim theorems -/

/-- C1: the claim states that for every address in `0x4000..0xFFFF` the arcade
bus read returns the byte stored at `addr mod 0x4000`.  The code disagrees: at
address 0x4000 it reads the backing byte 0x2000 (which is 0 here) instead of
the backing byte 0x0000 = `0x4000 mod 0x4000` (which holds the ROM byte 0xAB).
This theorem evaluates the code at that failing input.  The write half of the
claim does hold in the source; only reads fold wrongly (banks 0x4000-0x5FFF,
0x8000-0x9FFF and 0xC000-0xDFFF read RAM at `(addr mod 0x2000) + 0x2000`). -/
theorem C1_mirror_read_bug :
    space_read (space_new romC1) 0x4000 = 0 ∧
    space_read (space_new romC1) (0x4000 % 0x4000) = 0xAB :=
  ⟨by decide, by decide⟩

/-- C2 counterexample: the claim states that an OUT pair with an unrecognized
port (here port 0) is ignored by the frame driver and is never fatal; the
source's wildcard arm is an explicit program abort, modelled as `none`. -/
theorem C2_unknown_port_aborts : handle_output driver0 0 0 = none := rfl

/-- C2 (amended): the frame driver consumes an OUT pair non-fatally exactly
when the port is one of 2 (shift offset), 3 (sounds), 4 (shift load),
5 (sounds) or 6 (watchdog); every other port aborts the emulator thread. -/
theorem C2_recognized_ports (s : DriverState) (device value : Nat) :
    (handle_output s device value).isSome = true ↔
      (device = 2 ∨ device = 3 ∨ device = 4 ∨ device = 5 ∨ device = 6) := by
  unfold handle_output
  split_ifs with h2 h3 h4 h5 h6 <;> simp_all

/-- C3: the claim states that dispatching any opcode never aborts for any CPU
state, naming ADC at a wrap-around boundary explicitly.  The code disagrees:
opcode 0x88 (ADC B) with the carry flag set and B = 0xFF reaches the source's
unchecked u8 addition `value + carry`, which overflows — an abort when
overflow checks are enabled (the default debug profile), and a silent carry
mis-computation otherwise.  This theorem evaluates the dispatcher at that
failing input. -/
theorem C3_adc_dispatch_aborts : dispatch basic_ops 0x88 cpuC3 = none := rfl

/-- C4: the claim states that RAL stores the shifted-out OLD BIT 7 of A into
the carry.  The code disagrees: it saves `a & 0x1` (the old bit 0) before the
left shift.  At A = 0x80 with carry clear, the 8080 (and the claim) produce
A = 0x00 with carry SET, while the code produces A = 0x00 with carry CLEAR.
(The RAR half of the claim does hold in the source.) -/
theorem C4_ral_latches_bit0 :
    (ral cpuC4).map (fun p => (p.1.a, p.1.conditions.carry, p.2)) = some (0, false, 3) := rfl

/-- C5: the claim states that ANA sets the auxiliary flag to the OR of bits 3
of the operands and that XRA/ORA clear it.  The code disagrees: none of the
logical operations touch the auxiliary flag (despite their own `Flags: SZAPC`
comments).  ANA B on A = B = 0x08 leaves aux false where the claim requires
true, and XRA B with aux previously set leaves it true where the claim
requires false. -/
theorem C5_logical_aux_untouched :
    (ana Register.B cpuC5and).map (fun p => (p.1.a, p.1.conditions.aux)) = some (8, false) ∧
    (xra Register.B cpuC5xor).map (fun p => (p.1.a, p.1.conditions.aux)) = some (0, true) :=
  ⟨rfl, rfl⟩

/-- C6: for all bytes x (the accumulator) and y (the operand register), ADD
produces accumulator `(x+y) mod 256`, carry `x+y ≥ 256`, zero iff the result
byte is 0, sign iff the result byte is at least 0x80, parity iff the count of
set bits of the result byte is even, and auxiliary iff
`(x & 0xF) + (y & 0xF) ≥ 0x10`; the cycle count is 4 (3 after the current
tick), exactly as the claim states. -/
theorem C6_add_flags {M : Type} (register : Register) (cpu : Cpu M)
    (ha : cpu.a < 256) (hy : get_one_byte_register register cpu < 256) :
    add register cpu = some ({ cpu with
      a := (cpu.a + get_one_byte_register register cpu) % 256,
      conditions := {
        carry := decide (256 ≤ cpu.a + get_one_byte_register register cpu),
        aux := decide (16 ≤ (cpu.a &&& 15) + (get_one_byte_register register cpu &&& 15)),
        sign := decide (128 ≤ (cpu.a + get_one_byte_register register cpu) % 256),
        zero := decide ((cpu.a + get_one_byte_register register cpu) % 256 = 0),
        parity := decide (count_ones ((cpu.a + get_one_byte_register register cpu) % 256) % 2 = 0) } }, 3) := by
  have hsum : cpu.a + get_one_byte_register register cpu ≤ 65535 := by omega
  simp only [add, add_sub_8bit, u16add_eq_some _ _ hsum, check_half_carry_add_eq,
    Option.some_bind, Conditions.set]
  rfl

/-- C6 witness: the theorem applied at A = 0x01, B = 0xFF. -/
theorem C6_add_flags_witness :
    cpuC6.a < 256 ∧ get_one_byte_register Register.B cpuC6 < 256 ∧
    add Register.B cpuC6 = some ({ cpuC6 with
      a := (cpuC6.a + get_one_byte_register Register.B cpuC6) % 256,
      conditions := {
        carry := decide (256 ≤ cpuC6.a + get_one_byte_register Register.B cpuC6),
        aux := decide (16 ≤ (cpuC6.a &&& 15) + (get_one_byte_register Register.B cpuC6 &&& 15)),
        sign := decide (128 ≤ (cpuC6.a + get_one_byte_register Register.B cpuC6) % 256),
        zero := decide ((cpuC6.a + get_one_byte_register Register.B cpuC6) % 256 = 0),
        parity := decide (count_ones ((cpuC6.a + get_one_byte_register Register.B cpuC6) % 256) % 2 = 0) } }, 3) :=
  ⟨by decide, by decide, C6_add_flags Register.B cpuC6 (by decide) (by decide)⟩

/-- C7: `receive_interrupt` latches the opcode unconditionally (overwriting
any previous latch), and a tick on a non-waiting CPU with interrupts enabled
and a pending opcode executes that opcode as the fetched instruction on the
state with halted cleared, interrupts disabled and the latch cleared — in
particular PC is not advanced before dispatch. -/
theorem C7_interrupt_consumption {M : Type} (ops : MemoryOps M) (cpu cpu2 : Cpu M)
    (op op2 : Nat) (h1 : cpu.wait_cycles = 0) (h2 : cpu.interrupt_enabled = true)
    (h3 : cpu.interrupt_opcode = some op) :
    receive_interrupt op2 cpu2 = { cpu2 with interrupt_opcode := some op2 } ∧
    tick ops cpu = (dispatch ops op { cpu with
        halted := false,
        interrupt_enabled := false,
        interrupt_opcode := none }).map (fun p => { p.1 with wait_cycles := p.2 }) := by
  refine ⟨rfl, ?_⟩
  simp [tick, h1, h2, h3]

/-- C7 witness: the theorem applied on the flat bus with a pending NOP. -/
theorem C7_interrupt_witness :
    cpuC7.wait_cycles = 0 ∧ cpuC7.interrupt_enabled = true ∧
    cpuC7.interrupt_opcode = some 0 ∧
    (receive_interrupt 0xCF cpuC7 = { cpuC7 with interrupt_opcode := some 0xCF } ∧
     tick basic_ops cpuC7 = (dispatch basic_ops 0 { cpuC7 with
        halted := false,
        interrupt_enabled := false,
        interrupt_opcode := none }).map (fun p => { p.1 with wait_cycles := p.2 })) :=
  ⟨rfl, rfl, rfl, C7_interrupt_consumption basic_ops cpuC7 cpuC7 0 0xCF rfl rfl rfl⟩

/-- C8 counterexample: the claim's masked identity with mask 0xD7 fails at
byte 0, because 0xD7 keeps bit 1, which pack always forces to 1. -/
theorem C8_mask_d7_fails :
    ¬ ((Conditions.new.restore_from_bits 0).as_bits &&& 0xD7 = 0 &&& 0xD7) := by decide

/-- C8 (amended): unpack after pack restores all five flag booleans exactly;
pack after unpack preserves the byte on mask 0xD5 (bits 1, 3 and 5 masked,
rather than the claim's 0xD7 which wrongly keeps bit 1); and pack always
produces bit 1 set and bits 3 and 5 clear. -/
theorem C8_psw_roundtrip (cond f : Conditions) (b : Nat) (hb : b < 256) :
    cond.restore_from_bits f.as_bits = f ∧
    (cond.restore_from_bits b).as_bits &&& 0xD5 = b &&& 0xD5 ∧
    f.as_bits &&& 0b00000010 = 0b00000010 ∧ f.as_bits &&& 0b00101000 = 0 := by
  refine ⟨?_, ?_, ?_, ?_⟩
  · rcases f with ⟨fc, fa, fs, fz, fp⟩
    cases fc <;> cases fa <;> cases fs <;> cases fz <;> cases fp <;> rfl
  · have hrw : cond.restore_from_bits b = Conditions.new.restore_from_bits b := rfl
    rw [hrw]
    exact mask_table ⟨b, hb⟩
  · rcases f with ⟨fc, fa, fs, fz, fp⟩
    cases fc <;> cases fa <;> cases fs <;> cases fz <;> cases fp <;> decide
  · rcases f with ⟨fc, fa, fs, fz, fp⟩
    cases fc <;> cases fa <;> cases fs <;> cases fz <;> cases fp <;> decide

/-- C8 witness: the amended theorem applied at the all-clear flags and b = 0. -/
theorem C8_psw_roundtrip_witness :
    (0 : Nat) < 256 ∧
    (Conditions.new.restore_from_bits Conditions.new.as_bits = Conditions.new ∧
     (Conditions.new.restore_from_bits 0).as_bits &&& 0xD5 = 0 &&& 0xD5 ∧
     Conditions.new.as_bits &&& 0b00000010 = 0b00000010 ∧
     Conditions.new.as_bits &&& 0b00101000 = 0) :=
  ⟨by decide, C8_psw_roundtrip Conditions.new Conditions.new 0 (by decide)⟩

/-- C9: a tick on a CPU owing wait cycles only decrements the debt by one;
the record-update equality pins every other field — registers, PC, SP, flags,
interrupt enable, halted, the pending-interrupt latch, the device latches,
the output latch and the memory — to its previous value. -/
theorem C9_wait_decrements {M : Type} (ops : MemoryOps M) (cpu : Cpu M)
    (h : 0 < cpu.wait_cycles) :
    tick ops cpu = some { cpu with wait_cycles := cpu.wait_cycles - 1 } := by
  simp [tick, h]

/-- C9 witness: the theorem applied to a CPU owing five cycles. -/
theorem C9_wait_witness :
    0 < cpuC9.wait_cycles ∧
    tick basic_ops cpuC9 = some { cpuC9 with wait_cycles := cpuC9.wait_cycles - 1 } :=
  ⟨by decide, C9_wait_decrements basic_ops cpuC9 (by decide)⟩

/-- C10: the flat test bus reads 0 everywhere when fresh, a write is read back
at the written address, and every other address is unaffected. -/
theorem C10_basic_memory (m : BMem) (a v bb : Nat) (h : bb ≠ a) :
    basic_read basic_new a = 0 ∧ basic_read (basic_write m a v) a = v ∧
    basic_read (basic_write m a v) bb = basic_read m bb := by
  refine ⟨rfl, ?_, ?_⟩
  · simp [basic_read, basic_write]
  · simp [basic_read, basic_write, h]

/-- C10 witness: the theorem applied at addresses 0 and 1 with value 7. -/
theorem C10_basic_memory_witness :
    (1 : Nat) ≠ 0 ∧
    (basic_read basic_new 0 = 0 ∧ basic_read (basic_write basic_new 0 7) 0 = 7 ∧
     basic_read (basic_write basic_new 0 7) 1 = basic_read basic_new 1) :=
  ⟨by decide, C10_basic_memory basic_new 0 7 1 (by decide)⟩
